import Mathlib

/-!
Shallow embedding of the triarbot triangular-arbitrage engine
(src/triarbstrat/tri_arb_indicator.py, tri_arb_strategy.py, tri_arb_trader.py).
Python Decimal values are modelled as exact rationals, Python dicts as
association lists with first-occurrence lookup and replace-or-append insert,
and exceptions as Except / Option results.
-/

/-- Mirrors exchanges.exmo_exchange.Ticker (a NamedTuple of Decimal prices,
with the update timestamp modelled as a natural number). -/
structure Ticker where
  high : ℚ
  low : ℚ
  avg : ℚ
  vol : ℚ
  vol_curr : ℚ
  last_trade : ℚ
  buy_price : ℚ
  sell_price : ℚ
  updated : Nat
  deriving DecidableEq, Repr

/-- Mirrors triarbstrat.tri_arb_trader.OrderSide. -/
inductive OrderSide where
  | BUY
  | SELL
  deriving DecidableEq, Repr

/-- Mirrors triarbstrat.tri_arb_trader.OrderType. -/
inductive OrderType where
  | MARKET
  | LIMIT
  deriving DecidableEq, Repr

/-- Mirrors triarbstrat.tri_arb_trader.OrderStatus. -/
inductive OrderStatus where
  | PLACING
  | OPEN
  | PARTIAL
  | COMPLETED
  | CANCELED
  deriving DecidableEq, Repr

/-- Mirrors triarbstrat.tri_arb_trader.PairAndRate. -/
structure PairAndRate where
  pair : String
  calc_rate : ℚ
  order_rate : ℚ
  side : OrderSide
  deriving DecidableEq, Repr

/-- Lookup in a Python dict modelled as an association list (first match wins). -/
def dictLookup {α : Type} : List (String × α) → String → Option α
  | [], _ => none
  | (k, v) :: rest, key => if k = key then some v else dictLookup rest key

/-- Assignment d[k] = v on a Python dict modelled as an association list:
replace the first binding of k, or append when absent. -/
def dictInsert {α : Type} : List (String × α) → String → α → List (String × α)
  | [], k, v => [(k, v)]
  | (k0, v0) :: rest, k, v =>
      if k0 = k then (k, v) :: rest else (k0, v0) :: dictInsert rest k v

/-- MarketOrderArbCalculator.get_pair_and_rate (tri_arb_indicator.py lines 176 to 193):
looks up the direct pair A_B, then the inverse pair B_A; a market order buys at
sell_price and sells at buy_price, fee-adjusted into calc_rate. -/
def MarketOrderArbCalculator.get_pair_and_rate (fee : ℚ) (tickers : List (String × Ticker))
    (curr_a curr_b : String) : Option PairAndRate :=
  let pair_ab := curr_a ++ "_" ++ curr_b
  let pair_ba := curr_b ++ "_" ++ curr_a
  match dictLookup tickers pair_ab with
  | some t =>
      some { pair := pair_ab, calc_rate := (1 - fee) / t.sell_price,
             order_rate := t.sell_price, side := OrderSide.BUY }
  | none =>
      match dictLookup tickers pair_ba with
      | some t =>
          some { pair := pair_ba, calc_rate := (1 - fee) * t.buy_price,
                 order_rate := t.buy_price, side := OrderSide.SELL }
      | none => none

/-- LimitOrderArbCalculator.get_pair_and_rate (tri_arb_indicator.py lines 152 to 171):
same branching as the market variant but prices are offset inward from the spread
by rate_offset, with calc_rate adjusted reciprocally. -/
def LimitOrderArbCalculator.get_pair_and_rate (fee rate_offset : ℚ)
    (tickers : List (String × Ticker)) (curr_a curr_b : String) : Option PairAndRate :=
  let pair_ab := curr_a ++ "_" ++ curr_b
  let pair_ba := curr_b ++ "_" ++ curr_a
  match dictLookup tickers pair_ab with
  | some t =>
      some { pair := pair_ab,
             calc_rate := (1 - fee) / t.buy_price / (1 + rate_offset),
             order_rate := t.buy_price * (1 + rate_offset), side := OrderSide.BUY }
  | none =>
      match dictLookup tickers pair_ba with
      | some t =>
          some { pair := pair_ba,
                 calc_rate := (1 - fee) * t.sell_price * (1 - rate_offset),
                 order_rate := t.sell_price * (1 - rate_offset), side := OrderSide.SELL }
      | none => none

/-- Dispatch over the two AbstractArbCalculator implementations; the indicator
holds one of them (tri_arb_indicator.py line 46). -/
inductive ArbCalculator where
  | market (fee : ℚ)
  | limit (fee : ℚ) (rate_offset : ℚ)
  deriving DecidableEq, Repr

/-- Virtual call calculator.get_pair_and_rate, resolved per variant. -/
def ArbCalculator.get_pair_and_rate : ArbCalculator → List (String × Ticker) →
    String → String → Option PairAndRate
  | ArbCalculator.market fee => MarketOrderArbCalculator.get_pair_and_rate fee
  | ArbCalculator.limit fee rate_offset => LimitOrderArbCalculator.get_pair_and_rate fee rate_offset

/-- One cached arbitrage opportunity: the three legs and the gain, as stored in
TriangularArbitrageIndicator.arb_opps (tri_arb_indicator.py line 87). -/
abbrev OppEntry := PairAndRate × PairAndRate × PairAndRate × ℚ

/-- Mirrors the state of triarbstrat.tri_arb_indicator.TriangularArbitrageIndicator
(fields used by update; logger and signal handler omitted as pure side channels). -/
structure TriangularArbitrageIndicator where
  quote_curr : String
  trading_currencies : List String
  order_type : OrderType
  gain_min_limit : ℚ
  arb_calculator : ArbCalculator
  arb_opps : List (String × OppEntry)
  deriving DecidableEq, Repr

/-- Accumulator of the double loop in TriangularArbitrageIndicator.update:
the opportunity cache plus the max_gain and max_path trackers. -/
structure UpdAcc where
  opps : List (String × OppEntry)
  max_gain : ℚ
  max_path : String
  deriving DecidableEq, Repr

/-- Body of the inner loop of TriangularArbitrageIndicator.update
(tri_arb_indicator.py lines 69 to 93): one candidate triangle via curr2. -/
def updateStep (calculator : ArbCalculator) (tickers : List (String × Ticker))
    (quote_curr curr1 : String) (curr1_quote : PairAndRate) (acc : UpdAcc)
    (curr2 : String) : UpdAcc :=
  if curr2 = quote_curr ∨ curr2 = curr1 then acc
  else
    match ArbCalculator.get_pair_and_rate calculator tickers curr2 curr1 with
    | none => acc
    | some curr2_curr1 =>
        match ArbCalculator.get_pair_and_rate calculator tickers quote_curr curr2 with
        | none => acc
        | some quote_curr2 =>
            let gain := curr2_curr1.calc_rate * quote_curr2.calc_rate -
              1 / curr1_quote.calc_rate
            if 0 < gain then
              let path := curr1_quote.pair ++ ">" ++ curr2_curr1.pair ++ ">" ++ quote_curr2.pair
              let opps := dictInsert acc.opps path (curr1_quote, curr2_curr1, quote_curr2, gain)
              if acc.max_gain < gain then ⟨opps, gain, path⟩
              else ⟨opps, acc.max_gain, acc.max_path⟩
            else acc

/-- Body of the outer loop of TriangularArbitrageIndicator.update
(tri_arb_indicator.py lines 60 to 93): one candidate first currency curr1. -/
def updateOuter (calculator : ArbCalculator) (tickers : List (String × Ticker))
    (quote_curr : String) (trading_currencies : List String) (acc : UpdAcc)
    (curr1 : String) : UpdAcc :=
  if curr1 = quote_curr then acc
  else
    match ArbCalculator.get_pair_and_rate calculator tickers curr1 quote_curr with
    | none => acc
    | some curr1_quote =>
        trading_currencies.foldl (updateStep calculator tickers quote_curr curr1 curr1_quote) acc

/-- TriangularArbitrageIndicator.update (tri_arb_indicator.py lines 52 to 107):
runs the double loop over trading currencies against a fresh ticker snapshot and
keeps the updated opportunity cache (the end-of-call signalling is a logging and
callback side effect and does not touch indicator state). -/
def TriangularArbitrageIndicator.update (ind : TriangularArbitrageIndicator)
    (tickers : List (String × Ticker)) : TriangularArbitrageIndicator :=
  let acc := ind.trading_currencies.foldl
    (updateOuter ind.arb_calculator tickers ind.quote_curr ind.trading_currencies)
    ⟨ind.arb_opps, 0, ""⟩
  { ind with arb_opps := acc.opps }

/-- The stored gain of a cache entry matches the triangle gain formula of
tri_arb_indicator.py line 83. -/
def gainIdentity (e : String × OppEntry) : Prop :=
  e.2.2.2.2 = e.2.2.1.calc_rate * e.2.2.2.1.calc_rate - 1 / e.2.1.calc_rate

/-- Every entry of an opportunity cache has strictly positive gain. -/
def oppsInvariant (m : List (String × OppEntry)) : Prop :=
  ∀ e ∈ m, 0 < e.2.2.2.2

/-- One order-book level as returned by the exchange: price, quantity, amount. -/
structure Level where
  price : ℚ
  quantity : ℚ
  amount : ℚ
  deriving DecidableEq, Repr

/-- One order book: the ask ladder and the bid ladder. -/
structure OrderBook where
  ask : List Level
  bid : List Level
  deriving DecidableEq, Repr

/-- The ask-side walk of TriangularArbitrageStrategy._get_weighted_rate
(tri_arb_strategy.py lines 198 to 204): accumulate quantity and amount level by
level, breaking once the accumulated amount reaches amount_to_sell; returns the
final (last_rate, quantity_total, amount_total). -/
def consumeAsks (amount_to_sell last_rate quantity_total amount_total : ℚ) :
    List Level → ℚ × ℚ × ℚ
  | [] => (last_rate, quantity_total, amount_total)
  | l :: rest =>
      let last_rate := l.price
      let quantity_total := quantity_total + l.quantity
      let amount_total := amount_total + l.amount
      if amount_to_sell ≤ amount_total then (last_rate, quantity_total, amount_total)
      else consumeAsks amount_to_sell last_rate quantity_total amount_total rest

/-- The bid-side walk of TriangularArbitrageStrategy._get_weighted_rate
(tri_arb_strategy.py lines 219 to 225): same accumulation, breaking once the
accumulated quantity reaches amount_to_sell. -/
def consumeBids (amount_to_sell last_rate quantity_total amount_total : ℚ) :
    List Level → ℚ × ℚ × ℚ
  | [] => (last_rate, quantity_total, amount_total)
  | l :: rest =>
      let last_rate := l.price
      let quantity_total := quantity_total + l.quantity
      let amount_total := amount_total + l.amount
      if amount_to_sell ≤ quantity_total then (last_rate, quantity_total, amount_total)
      else consumeBids amount_to_sell last_rate quantity_total amount_total rest

/-- TriangularArbitrageStrategy._get_weighted_rate (tri_arb_strategy.py lines
191 to 242). The Python code raises a generic Exception when the walked side of
the book is exhausted before the target is reached; that insufficient-depth
exception is modelled as the none result. taker_fee is
self.exchange.get_fees()[taker]. Returns (weighted_rate, acquired_amount). -/
def get_weighted_rate (taker_fee amount_to_sell : ℚ) (order_book : OrderBook)
    (side : OrderSide) : Option (ℚ × ℚ) :=
  match side with
  | OrderSide.BUY =>
      let r := consumeAsks amount_to_sell 0 0 0 order_book.ask
      let last_rate := r.1
      let quantity_total0 := r.2.1
      let amount_total0 := r.2.2
      if amount_total0 < amount_to_sell then none
      else
        let quantity_total :=
          if amount_to_sell < amount_total0 then
            quantity_total0 - ((amount_total0 - amount_to_sell) / last_rate)
          else quantity_total0
        let amount_total :=
          if amount_to_sell < amount_total0 then amount_to_sell else amount_total0
        some ((1 - taker_fee) * quantity_total / amount_total, quantity_total)
  | OrderSide.SELL =>
      let r := consumeBids amount_to_sell 0 0 0 order_book.bid
      let last_rate := r.1
      let quantity_total0 := r.2.1
      let amount_total0 := r.2.2
      if quantity_total0 < amount_to_sell then none
      else
        let amount_total :=
          if amount_to_sell < quantity_total0 then
            amount_total0 - ((quantity_total0 - amount_to_sell) * last_rate)
          else amount_total0
        let quantity_total :=
          if amount_to_sell < quantity_total0 then amount_to_sell else quantity_total0
        some ((1 - taker_fee) * amount_total / quantity_total, amount_total)

/-- TriangularArbitrageStrategy._recalc_gain_with_slippage (tri_arb_strategy.py
lines 171 to 189): chain the three depth-weighted legs, each acquired amount
funding the next leg, then recompute gain and the PnL amount. The order books
are passed directly in place of the exchange.get_order_book call. -/
def recalc_gain_with_slippage (taker_fee : ℚ) (pair1 pair2 pair3 : PairAndRate)
    (p1_order_book p2_order_book p3_order_book : OrderBook)
    (trading_amount : ℚ) : Option (ℚ × ℚ) :=
  match get_weighted_rate taker_fee trading_amount p1_order_book pair1.side with
  | none => none
  | some (p1_weighted_rate, acquired_amount1) =>
      match get_weighted_rate taker_fee acquired_amount1 p2_order_book pair2.side with
      | none => none
      | some (p2_weighted_rate, acquired_amount2) =>
          match get_weighted_rate taker_fee acquired_amount2 p3_order_book pair3.side with
          | none => none
          | some (p3_weighted_rate, acquired_amount3) =>
              some (p2_weighted_rate * p3_weighted_rate - 1 / p1_weighted_rate,
                    acquired_amount3 - trading_amount)

/-- Sum of the amount field over an order-book ladder. -/
def sumLevelAmounts (levels : List Level) : ℚ := (levels.map Level.amount).sum

/-- Sum of the quantity field over an order-book ladder. -/
def sumLevelQuantities (levels : List Level) : ℚ := (levels.map Level.quantity).sum

/-- Mirrors triarbstrat.tri_arb_trader.Order (a NamedTuple; created modelled
as a natural-number timestamp). -/
structure Order where
  id : Int
  exch_order_id : Int
  triarb_opportunity_id : Int
  created : Nat
  pair : String
  quantity : ℚ
  price : ℚ
  side : OrderSide
  type : OrderType
  status : OrderStatus
  deriving DecidableEq, Repr

/-- One order submission to the exchange, recording which place_* method of
ExmoExchange was called with which arguments (tri_arb_trader.py lines 169 to 179). -/
inductive ExchangeCall where
  | limit_buy (pair : String) (quantity price : ℚ)
  | limit_sell (pair : String) (quantity price : ℚ)
  | market_buy_total (pair : String) (quantity : ℚ)
  | market_sell (pair : String) (quantity : ℚ)
  deriving DecidableEq, Repr

/-- Mirrors the mutable state of triarbstrat.tri_arb_trader.TriangularArbitrageTrader.
pairs_iter holds the not-yet-current legs; the registered order_update_handler is
passed explicitly to the operations below. -/
structure TriangularArbitrageTrader where
  paper_trading : Bool
  order_type : OrderType
  initial_amount : ℚ
  pairs_iter : List PairAndRate
  triarb_opp_id : Int
  current_pair : Option PairAndRate
  cur_pair_idx : Nat
  current_order : Option Order
  current_acquired_curr : String
  current_acquired_amount : ℚ
  deriving DecidableEq, Repr

/-- TriangularArbitrageTrader._handle_order_update (tri_arb_trader.py lines 220
to 222): the handler, when registered, returns the authoritative order record. -/
def applyHandler (handler : Option (Order → Order)) (o : Order) : Order :=
  match handler with
  | some f => f o
  | none => o

/-- TriangularArbitrageTrader._place_order (tri_arb_trader.py lines 156 to 185):
build a PLACING order, pass it through the update handler, submit it to the
exchange (exch_order_id is the id the exchange returns, now the clock reading),
then transition it to OPEN and pass it through the handler again. Returns the
new trader state and the list of exchange submissions made. -/
def TriangularArbitrageTrader.place_order (t : TriangularArbitrageTrader)
    (handler : Option (Order → Order)) (exch_order_id : Int) (now : Nat)
    (pair : PairAndRate) (triarb_opp_id : Int) :
    TriangularArbitrageTrader × List ExchangeCall :=
  if t.paper_trading then (t, [])
  else
    let quantity :=
      if t.order_type = OrderType.LIMIT ∧ pair.side = OrderSide.BUY then
        t.current_acquired_amount / pair.order_rate
      else t.current_acquired_amount
    let order0 : Order :=
      ⟨-1, -1, triarb_opp_id, now, pair.pair, quantity, pair.order_rate,
       pair.side, t.order_type, OrderStatus.PLACING⟩
    let order1 := applyHandler handler order0
    let call :=
      match t.order_type, pair.side with
      | OrderType.LIMIT, OrderSide.BUY => ExchangeCall.limit_buy pair.pair quantity pair.order_rate
      | OrderType.LIMIT, OrderSide.SELL => ExchangeCall.limit_sell pair.pair quantity pair.order_rate
      | OrderType.MARKET, OrderSide.BUY => ExchangeCall.market_buy_total pair.pair quantity
      | OrderType.MARKET, OrderSide.SELL => ExchangeCall.market_sell pair.pair quantity
    let order2 := applyHandler handler
      { order1 with exch_order_id := exch_order_id, status := OrderStatus.OPEN }
    ({ t with current_order := some order2 }, [call])

/-- TriangularArbitrageTrader.start_arb_loop (tri_arb_trader.py lines 96 to 127):
returns immediately when paper trading or when a current order exists; otherwise
resets the acquired amount, queues the three legs, switches to leg 1 and places
its order. -/
def TriangularArbitrageTrader.start_arb_loop (t : TriangularArbitrageTrader)
    (handler : Option (Order → Order)) (exch_order_id : Int) (now : Nat)
    (pair1 pair2 pair3 : PairAndRate) (triarb_opp_id : Int)
    (trading_amount : ℚ) : TriangularArbitrageTrader × List ExchangeCall :=
  if t.paper_trading || t.current_order.isSome then (t, [])
  else
    let t1 := { t with
      initial_amount := trading_amount,
      current_acquired_amount := trading_amount,
      pairs_iter := [pair2, pair3],
      triarb_opp_id := triarb_opp_id,
      current_pair := some pair1,
      cur_pair_idx := t.cur_pair_idx + 1 }
    TriangularArbitrageTrader.place_order t1 handler exch_order_id now pair1 triarb_opp_id

/-- The open-orders membership test of tri_arb_trader.py lines 190 to 194:
the current pair is looked up in the open-orders view and the list of order ids
under it is scanned for the current exchange order id. -/
def order_still_open (open_orders : List (String × List Int)) (pair : String)
    (exch_order_id : Int) : Bool :=
  match dictLookup open_orders pair with
  | some pair_orders => pair_orders.contains exch_order_id
  | none => false

/-- TriangularArbitrageTrader._update_current_order_status (tri_arb_trader.py
lines 187 to 218). open_orders is the exchange get_user_open_orders view,
order_trades the get_order_trades result as (in_currency, in_amount), taker_fee
the exchange taker fee. The Python raise on a vanished order is modelled as an
error result carrying the exception message. -/
def TriangularArbitrageTrader.update_current_order_status (t : TriangularArbitrageTrader)
    (open_orders : List (String × List Int)) (order_trades : Option (String × ℚ))
    (taker_fee : ℚ) (handler : Option (Order → Order)) :
    Except String TriangularArbitrageTrader :=
  match t.current_order with
  | some co =>
      if co.exch_order_id = -1 then Except.ok { t with current_order := none }
      else
        let check_trades : Except String TriangularArbitrageTrader :=
          match order_trades with
          | some (in_currency, in_amount) =>
              let t1 := { t with
                current_acquired_curr := in_currency,
                current_acquired_amount := in_amount * (1 - taker_fee) }
              let completed := applyHandler handler { co with status := OrderStatus.COMPLETED }
              Except.ok { t1 with current_order := some completed }
          | none => Except.error "Error: order executed but no trades found"
        if open_orders = [] then check_trades
        else
          match t.current_pair with
          | none => Except.error "AttributeError: current_pair is None"
          | some cp =>
              if order_still_open open_orders cp.pair co.exch_order_id then Except.ok t
              else check_trades
  | none => Except.ok { t with current_order := none }

/-- TriangularArbitrageTrader.update (tri_arb_trader.py lines 129 to 151): track
the current order status, and when the current order completed either place the
next queued leg or close the loop. exch_order_id and now feed a possible
place_order call. Errors from the status check propagate to the caller. -/
def TriangularArbitrageTrader.update (t : TriangularArbitrageTrader)
    (open_orders : List (String × List Int)) (order_trades : Option (String × ℚ))
    (taker_fee : ℚ) (handler : Option (Order → Order)) (exch_order_id : Int)
    (now : Nat) : Except String (TriangularArbitrageTrader × List ExchangeCall) :=
  if t.paper_trading then Except.ok (t, [])
  else
    match TriangularArbitrageTrader.update_current_order_status t open_orders
        order_trades taker_fee handler with
    | Except.error e => Except.error e
    | Except.ok t1 =>
        match t1.current_order with
        | some co =>
            if co.status = OrderStatus.COMPLETED then
              match t1.pairs_iter with
              | p :: rest =>
                  let t2 := { t1 with
                    current_pair := some p,
                    cur_pair_idx := t1.cur_pair_idx + 1,
                    pairs_iter := rest }
                  Except.ok (TriangularArbitrageTrader.place_order t2 handler
                    exch_order_id now p t1.triarb_opp_id)
              | [] =>
                  Except.ok ({ t1 with current_order := none, cur_pair_idx := 0 }, [])
            else Except.ok (t1, [])
        | none => Except.ok (t1, [])

/-- Market-mode indicator over USD with candidates BTC and ETH whose snapshot
posTickers yields one strictly positive triangle. -/
def posIndicator : TriangularArbitrageIndicator :=
  { quote_curr := "USD", trading_currencies := ["BTC", "ETH"],
    order_type := OrderType.MARKET, gain_min_limit := 1,
    arb_calculator := ArbCalculator.market 0, arb_opps := [] }

/-- Pair fixture used by the trader witnesses. -/
def samplePair : PairAndRate := ⟨"BTC_USD", 1 / 10, 10, OrderSide.BUY⟩

/-- An open exchange-accepted order fixture. -/
def sampleOrder : Order :=
  ⟨1, 5, 1, 0, "BTC_USD", 1, 10, OrderSide.BUY, OrderType.MARKET, OrderStatus.OPEN⟩

/-- A live trader mid-loop: not paper trading, with a current open order. -/
def busyTrader : TriangularArbitrageTrader :=
  { paper_trading := false, order_type := OrderType.MARKET, initial_amount := 5,
    pairs_iter := [], triarb_opp_id := 1, current_pair := some samplePair,
    cur_pair_idx := 1, current_order := some sampleOrder,
    current_acquired_curr := "USD", current_acquired_amount := 5 }

/-- Ticker fixture with the given best buy and sell prices (other fields zero). -/
def mkTicker (bp sp : ℚ) : Ticker := ⟨0, 0, 0, 0, 0, 0, bp, sp, 0⟩

/-- Snapshot from the spec example: BTC_USD with buy_price 10000, sell_price 10010. -/
def c2Tickers : List (String × Ticker) := [("BTC_USD", mkTicker 10000 10010)]

/-- Snapshot in which every triangle leg exists but every computed gain is zero. -/
def cexTickers : List (String × Ticker) :=
  [("BTC_USD", mkTicker 1 1), ("ETH_BTC", mkTicker 1 1), ("ETH_USD", mkTicker 1 1)]

/-- Market-mode indicator over USD with candidates BTC and ETH and empty cache. -/
def cexIndicator : TriangularArbitrageIndicator :=
  { quote_curr := "USD", trading_currencies := ["BTC", "ETH"],
    order_type := OrderType.MARKET, gain_min_limit := 1,
    arb_calculator := ArbCalculator.market 0, arb_opps := [] }

/-- Snapshot whose USD to BTC to ETH to USD triangle has strictly positive gain. -/
def posTickers : List (String × Ticker) :=
  [("BTC_USD", mkTicker 10 10), ("ETH_BTC", mkTicker (1 / 20) (1 / 20)),
   ("ETH_USD", mkTicker 1 1)]

/-- C3: for every ticker snapshot and currency pair (a, b), get_pair_and_rate
returns none exactly when neither the direct pair a_b nor the inverse pair b_a
is present in the snapshot, in both the Market and the Limit calculator variants. -/
theorem pair_and_rate_absent_iff (fee rate_offset : ℚ) (tickers : List (String × Ticker))
    (curr_a curr_b : String) :
    (MarketOrderArbCalculator.get_pair_and_rate fee tickers curr_a curr_b = none ↔
      dictLookup tickers (curr_a ++ "_" ++ curr_b) = none ∧
      dictLookup tickers (curr_b ++ "_" ++ curr_a) = none)
    ∧ (LimitOrderArbCalculator.get_pair_and_rate fee rate_offset tickers curr_a curr_b = none ↔
      dictLookup tickers (curr_a ++ "_" ++ curr_b) = none ∧
      dictLookup tickers (curr_b ++ "_" ++ curr_a) = none) := by
  constructor
  · unfold MarketOrderArbCalculator.get_pair_and_rate
    cases h1 : dictLookup tickers (curr_a ++ "_" ++ curr_b) <;>
      cases h2 : dictLookup tickers (curr_b ++ "_" ++ curr_a) <;> simp [h1, h2]
  · unfold LimitOrderArbCalculator.get_pair_and_rate
    cases h1 : dictLookup tickers (curr_a ++ "_" ++ curr_b) <;>
      cases h2 : dictLookup tickers (curr_b ++ "_" ++ curr_a) <;> simp [h1, h2]

/-- A successful dict lookup returns a binding present in the association list. -/
theorem dictLookup_mem {α : Type} (m : List (String × α)) (k : String) (v : α)
    (h : dictLookup m k = some v) : (k, v) ∈ m := by
  induction m with
  | nil => simp [dictLookup] at h
  | cons p rest ih =>
      obtain ⟨k0, v0⟩ := p
      rw [dictLookup] at h
      by_cases hk : k0 = k
      · subst hk
        rw [if_pos rfl] at h
        simp only [Option.some.injEq] at h
        subst h
        exact List.mem_cons_self _ _
      · rw [if_neg hk] at h
        exact List.mem_cons_of_mem _ (ih h)

/-- C2: with the BTC_USD ticker buy_price 10000 and sell_price 10010, fee 0.002
and offset 0.0005, the market variant prices a BUY leg at the sell_price
(order_rate 10010, calc_rate 0.998 / 10010) while the limit variant prices it at
buy_price times one plus the offset (order_rate 10005); in general a market BUY
leg uses sell_price and a limit BUY leg uses buy_price times (1 + offset). -/
theorem buy_leg_pricing :
    (∀ (fee : ℚ) (tickers : List (String × Ticker)) (curr_a curr_b : String) (t : Ticker),
      dictLookup tickers (curr_a ++ "_" ++ curr_b) = some t →
      MarketOrderArbCalculator.get_pair_and_rate fee tickers curr_a curr_b =
        some ⟨curr_a ++ "_" ++ curr_b, (1 - fee) / t.sell_price, t.sell_price, OrderSide.BUY⟩)
    ∧ (∀ (fee rate_offset : ℚ) (tickers : List (String × Ticker)) (curr_a curr_b : String)
        (t : Ticker),
      dictLookup tickers (curr_a ++ "_" ++ curr_b) = some t →
      LimitOrderArbCalculator.get_pair_and_rate fee rate_offset tickers curr_a curr_b =
        some ⟨curr_a ++ "_" ++ curr_b, (1 - fee) / t.buy_price / (1 + rate_offset),
              t.buy_price * (1 + rate_offset), OrderSide.BUY⟩)
    ∧ MarketOrderArbCalculator.get_pair_and_rate (1 / 500) c2Tickers "BTC" "USD" =
        some ⟨"BTC_USD", (1 - 1 / 500) / 10010, 10010, OrderSide.BUY⟩
    ∧ LimitOrderArbCalculator.get_pair_and_rate (1 / 500) (1 / 2000) c2Tickers "BTC" "USD" =
        some ⟨"BTC_USD", (1 - 1 / 500) / 10000 / (1 + 1 / 2000), 10005, OrderSide.BUY⟩ := by
  refine ⟨?_, ?_, ?_, ?_⟩
  · intro fee tickers curr_a curr_b t h
    simp [MarketOrderArbCalculator.get_pair_and_rate, h]
  · intro fee rate_offset tickers curr_a curr_b t h
    simp [LimitOrderArbCalculator.get_pair_and_rate, h]
  · simp [MarketOrderArbCalculator.get_pair_and_rate, c2Tickers, dictLookup, mkTicker]
  · simp [LimitOrderArbCalculator.get_pair_and_rate, c2Tickers, dictLookup, mkTicker]
    norm_num

/-- Witness for C2: the general market BUY clause applied to the concrete
BTC_USD snapshot. -/
theorem buy_leg_pricing_witness :
    MarketOrderArbCalculator.get_pair_and_rate (1 / 500) c2Tickers "BTC" "USD" =
      some ⟨"BTC" ++ "_" ++ "USD", (1 - 1 / 500) / (mkTicker 10000 10010).sell_price,
            (mkTicker 10000 10010).sell_price, OrderSide.BUY⟩ :=
  buy_leg_pricing.1 (1 / 500) c2Tickers "BTC" "USD" (mkTicker 10000 10010)
    (by simp [c2Tickers, dictLookup])

/-- C9: every PairAndRate produced by either calculator variant from a snapshot
with positive prices satisfies the normalization relation: on a BUY leg
calc_rate times order_rate equals 1 minus fee, and on a SELL leg calc_rate
equals (1 minus fee) times order_rate. -/
theorem calc_rate_normalized :
    (∀ (fee : ℚ) (tickers : List (String × Ticker)) (curr_a curr_b : String) (p : PairAndRate),
      (∀ e ∈ tickers, 0 < e.2.buy_price ∧ 0 < e.2.sell_price) →
      MarketOrderArbCalculator.get_pair_and_rate fee tickers curr_a curr_b = some p →
      (p.side = OrderSide.BUY → p.calc_rate * p.order_rate = 1 - fee) ∧
      (p.side = OrderSide.SELL → p.calc_rate = (1 - fee) * p.order_rate))
    ∧ (∀ (fee rate_offset : ℚ) (tickers : List (String × Ticker)) (curr_a curr_b : String)
        (p : PairAndRate),
      (∀ e ∈ tickers, 0 < e.2.buy_price ∧ 0 < e.2.sell_price) →
      1 + rate_offset ≠ 0 →
      LimitOrderArbCalculator.get_pair_and_rate fee rate_offset tickers curr_a curr_b = some p →
      (p.side = OrderSide.BUY → p.calc_rate * p.order_rate = 1 - fee) ∧
      (p.side = OrderSide.SELL → p.calc_rate = (1 - fee) * p.order_rate)) := by
  constructor
  · intro fee tickers curr_a curr_b p hpos h
    unfold MarketOrderArbCalculator.get_pair_and_rate at h
    cases h1 : dictLookup tickers (curr_a ++ "_" ++ curr_b) with
    | some t =>
        have hsp := (hpos _ (dictLookup_mem _ _ _ h1)).2
        simp only [h1, Option.some.injEq] at h
        subst h
        constructor
        · intro _
          exact div_mul_cancel₀ (1 - fee) (ne_of_gt hsp)
        · intro hside
          simp at hside
    | none =>
        cases h2 : dictLookup tickers (curr_b ++ "_" ++ curr_a) with
        | some t =>
            simp only [h1, h2, Option.some.injEq] at h
            subst h
            constructor
            · intro hside
              simp at hside
            · intro _
              rfl
        | none => simp [h1, h2] at h
  · intro fee rate_offset tickers curr_a curr_b p hpos hoff h
    unfold LimitOrderArbCalculator.get_pair_and_rate at h
    cases h1 : dictLookup tickers (curr_a ++ "_" ++ curr_b) with
    | some t =>
        have hbp := (hpos _ (dictLookup_mem _ _ _ h1)).1
        simp only [h1, Option.some.injEq] at h
        subst h
        constructor
        · intro _
          show (1 - fee) / t.buy_price / (1 + rate_offset) * (t.buy_price * (1 + rate_offset)) =
            1 - fee
          field_simp
        · intro hside
          simp at hside
    | none =>
        cases h2 : dictLookup tickers (curr_b ++ "_" ++ curr_a) with
        | some t =>
            simp only [h1, h2, Option.some.injEq] at h
            subst h
            constructor
            · intro hside
              simp at hside
            · intro _
              show (1 - fee) * t.sell_price * (1 - rate_offset) =
                (1 - fee) * (t.sell_price * (1 - rate_offset))
              ring
        | none => simp [h1, h2] at h

/-- Witness for C9: the market clause applied to the concrete BTC_USD snapshot. -/
theorem calc_rate_normalized_witness :
    ((⟨"BTC_USD", (1 - 1 / 500) / 10010, 10010, OrderSide.BUY⟩ : PairAndRate).side =
        OrderSide.BUY →
      (⟨"BTC_USD", (1 - 1 / 500) / 10010, 10010, OrderSide.BUY⟩ : PairAndRate).calc_rate *
        (⟨"BTC_USD", (1 - 1 / 500) / 10010, 10010, OrderSide.BUY⟩ : PairAndRate).order_rate =
        1 - 1 / 500) ∧
    ((⟨"BTC_USD", (1 - 1 / 500) / 10010, 10010, OrderSide.BUY⟩ : PairAndRate).side =
        OrderSide.SELL →
      (⟨"BTC_USD", (1 - 1 / 500) / 10010, 10010, OrderSide.BUY⟩ : PairAndRate).calc_rate =
        (1 - 1 / 500) *
        (⟨"BTC_USD", (1 - 1 / 500) / 10010, 10010, OrderSide.BUY⟩ : PairAndRate).order_rate) :=
  calc_rate_normalized.1 (1 / 500) c2Tickers "BTC" "USD"
    ⟨"BTC_USD", (1 - 1 / 500) / 10010, 10010, OrderSide.BUY⟩
    (by norm_num [c2Tickers, mkTicker])
    (by simp [MarketOrderArbCalculator.get_pair_and_rate, c2Tickers, dictLookup, mkTicker])

/-- Dict assignment followed by lookup: the inserted key now maps to the new
value and every other key is untouched. -/
theorem dictLookup_dictInsert {α : Type} (m : List (String × α)) (k k' : String) (v : α) :
    dictLookup (dictInsert m k v) k' = if k = k' then some v else dictLookup m k' := by
  induction m with
  | nil => simp [dictInsert, dictLookup]
  | cons p rest ih =>
      obtain ⟨k0, v0⟩ := p
      by_cases h0 : k0 = k
      · subst h0
        by_cases h1 : k0 = k' <;> simp [dictInsert, dictLookup, h1]
      · by_cases h1 : k0 = k'
        · subst h1
          have h2 : ¬k = k0 := fun h => h0 h.symm
          simp [dictInsert, dictLookup, h0, h2]
        · simp [dictInsert, dictLookup, h0, h1, ih]

/-- Every binding of a dict after an insert was either already present or is
the inserted binding. -/
theorem mem_dictInsert {α : Type} (m : List (String × α)) (k : String) (v : α)
    (e : String × α) (h : e ∈ dictInsert m k v) : e ∈ m ∨ e = (k, v) := by
  induction m with
  | nil =>
      simp [dictInsert] at h
      right
      exact h
  | cons p rest ih =>
      obtain ⟨k0, v0⟩ := p
      rw [dictInsert] at h
      by_cases h0 : k0 = k
      · rw [if_pos h0] at h
        rcases List.mem_cons.mp h with h1 | h1
        · right; exact h1
        · left; exact List.mem_cons_of_mem _ h1
      · rw [if_neg h0] at h
        rcases List.mem_cons.mp h with h1 | h1
        · left; rw [h1]; exact List.mem_cons_self _ _
        · rcases ih h1 with h2 | h2
          · left; exact List.mem_cons_of_mem _ h2
          · right; exact h2

/-- Any cache entry after one inner-loop step of the indicator update was either
already cached or was just computed with the triangle gain formula and a
strictly positive gain. -/
theorem updateStep_mem (calculator : ArbCalculator) (tickers : List (String × Ticker))
    (quote_curr curr1 : String) (curr1_quote : PairAndRate) (acc : UpdAcc)
    (curr2 : String) (e : String × OppEntry)
    (h : e ∈ (updateStep calculator tickers quote_curr curr1 curr1_quote acc curr2).opps) :
    e ∈ acc.opps ∨ (gainIdentity e ∧ 0 < e.2.2.2.2) := by
  by_cases hskip : curr2 = quote_curr ∨ curr2 = curr1
  · rw [updateStep, if_pos hskip] at h
    exact Or.inl h
  · rw [updateStep, if_neg hskip] at h
    cases hl2 : ArbCalculator.get_pair_and_rate calculator tickers curr2 curr1 with
    | none => rw [hl2] at h; exact Or.inl h
    | some curr2_curr1 =>
        rw [hl2] at h
        cases hl3 : ArbCalculator.get_pair_and_rate calculator tickers quote_curr curr2 with
        | none => rw [hl3] at h; exact Or.inl h
        | some quote_curr2 =>
            rw [hl3] at h
            simp only [] at h
            by_cases hg : 0 < curr2_curr1.calc_rate * quote_curr2.calc_rate -
              1 / curr1_quote.calc_rate
            · rw [if_pos hg] at h
              by_cases hm : acc.max_gain < curr2_curr1.calc_rate * quote_curr2.calc_rate -
                  1 / curr1_quote.calc_rate
              · rw [if_pos hm] at h
                rcases mem_dictInsert _ _ _ _ h with h1 | h1
                · exact Or.inl h1
                · subst h1
                  exact Or.inr ⟨rfl, hg⟩
              · rw [if_neg hm] at h
                rcases mem_dictInsert _ _ _ _ h with h1 | h1
                · exact Or.inl h1
                · subst h1
                  exact Or.inr ⟨rfl, hg⟩
            · rw [if_neg hg] at h
              exact Or.inl h

/-- Lifting of updateStep_mem over the inner foldl of the indicator update. -/
theorem foldl_updateStep_mem (calculator : ArbCalculator) (tickers : List (String × Ticker))
    (quote_curr curr1 : String) (curr1_quote : PairAndRate) (currs : List String)
    (acc : UpdAcc) (e : String × OppEntry)
    (h : e ∈ (currs.foldl (updateStep calculator tickers quote_curr curr1 curr1_quote)
      acc).opps) :
    e ∈ acc.opps ∨ (gainIdentity e ∧ 0 < e.2.2.2.2) := by
  induction currs generalizing acc with
  | nil => exact Or.inl h
  | cons c rest ih =>
      rw [List.foldl_cons] at h
      rcases ih _ h with h1 | h1
      · exact updateStep_mem _ _ _ _ _ _ _ _ h1
      · exact Or.inr h1

/-- Any cache entry after one outer-loop step of the indicator update was either
already cached or was computed with the gain formula and positive gain. -/
theorem updateOuter_mem (calculator : ArbCalculator) (tickers : List (String × Ticker))
    (quote_curr : String) (trading_currencies : List String) (acc : UpdAcc)
    (curr1 : String) (e : String × OppEntry)
    (h : e ∈ (updateOuter calculator tickers quote_curr trading_currencies acc curr1).opps) :
    e ∈ acc.opps ∨ (gainIdentity e ∧ 0 < e.2.2.2.2) := by
  by_cases hskip : curr1 = quote_curr
  · rw [updateOuter, if_pos hskip] at h
    exact Or.inl h
  · rw [updateOuter, if_neg hskip] at h
    cases hl1 : ArbCalculator.get_pair_and_rate calculator tickers curr1 quote_curr with
    | none => rw [hl1] at h; exact Or.inl h
    | some curr1_quote =>
        rw [hl1] at h
        exact foldl_updateStep_mem _ _ _ _ _ _ _ _ h

/-- Lifting of updateOuter_mem over the outer foldl of the indicator update. -/
theorem foldl_updateOuter_mem (calculator : ArbCalculator) (tickers : List (String × Ticker))
    (quote_curr : String) (trading_currencies currs : List String) (acc : UpdAcc)
    (e : String × OppEntry)
    (h : e ∈ (currs.foldl (updateOuter calculator tickers quote_curr trading_currencies)
      acc).opps) :
    e ∈ acc.opps ∨ (gainIdentity e ∧ 0 < e.2.2.2.2) := by
  induction currs generalizing acc with
  | nil => exact Or.inl h
  | cons c rest ih =>
      rw [List.foldl_cons] at h
      rcases ih _ h with h1 | h1
      · exact updateOuter_mem _ _ _ _ _ _ _ h1
      · exact Or.inr h1

/-- Any cache entry after a full indicator update was either already cached
before the call or was computed by the gain formula with positive gain. -/
theorem update_mem (ind : TriangularArbitrageIndicator) (tickers : List (String × Ticker))
    (e : String × OppEntry)
    (h : e ∈ (TriangularArbitrageIndicator.update ind tickers).arb_opps) :
    e ∈ ind.arb_opps ∨ (gainIdentity e ∧ 0 < e.2.2.2.2) :=
  foldl_updateOuter_mem _ _ _ _ _ _ _ h

/-- C1: every triangle entry produced by the indicator update satisfies the
exact gain identity gain = leg2.calc_rate * leg3.calc_rate - 1 / leg1.calc_rate
(entries not already cached before the call), and the slippage recomputation
returns exactly w2 * w3 - 1 / w1 for the three chained weighted rates it
computes; over the rationals these identities need no positivity side
conditions, so they hold in particular for legs with positive calc_rates. -/
theorem gain_formula_identity :
    (∀ (ind : TriangularArbitrageIndicator) (tickers : List (String × Ticker))
      (e : String × OppEntry),
      e ∈ (TriangularArbitrageIndicator.update ind tickers).arb_opps →
      e ∈ ind.arb_opps ∨ gainIdentity e)
    ∧ (∀ (taker_fee : ℚ) (pair1 pair2 pair3 : PairAndRate) (ob1 ob2 ob3 : OrderBook)
        (trading_amount w1 a1 w2 a2 w3 a3 : ℚ),
      get_weighted_rate taker_fee trading_amount ob1 pair1.side = some (w1, a1) →
      get_weighted_rate taker_fee a1 ob2 pair2.side = some (w2, a2) →
      get_weighted_rate taker_fee a2 ob3 pair3.side = some (w3, a3) →
      recalc_gain_with_slippage taker_fee pair1 pair2 pair3 ob1 ob2 ob3 trading_amount =
        some (w2 * w3 - 1 / w1, a3 - trading_amount)) := by
  constructor
  · intro ind tickers e h
    rcases update_mem ind tickers e h with h1 | h1
    · exact Or.inl h1
    · exact Or.inr h1.1
  · intro taker_fee pair1 pair2 pair3 ob1 ob2 ob3 trading_amount w1 a1 w2 a2 w3 a3 h1 h2 h3
    simp only [recalc_gain_with_slippage, h1, h2, h3]

/-- Witness for C1: the slippage clause applied to one concrete chained book. -/
theorem gain_formula_identity_witness :
    recalc_gain_with_slippage 0 ⟨"BTC_USD", 1 / 10, 10, OrderSide.BUY⟩
      ⟨"ETH_BTC", 20, 1 / 20, OrderSide.BUY⟩ ⟨"ETH_USD", 1, 1, OrderSide.SELL⟩
      ⟨[⟨10, 1, 10⟩], []⟩ ⟨[⟨1 / 20, 20, 1⟩], []⟩ ⟨[], [⟨1, 20, 20⟩]⟩ 10 =
      some ((1 - 0) * 20 / 1 * ((1 - 0) * 20 / 20) - 1 / ((1 - 0) * 1 / 10), 20 - 10) :=
  gain_formula_identity.2 0 ⟨"BTC_USD", 1 / 10, 10, OrderSide.BUY⟩
    ⟨"ETH_BTC", 20, 1 / 20, OrderSide.BUY⟩ ⟨"ETH_USD", 1, 1, OrderSide.SELL⟩
    ⟨[⟨10, 1, 10⟩], []⟩ ⟨[⟨1 / 20, 20, 1⟩], []⟩ ⟨[], [⟨1, 20, 20⟩]⟩ 10
    ((1 - 0) * 1 / 10) 1 ((1 - 0) * 20 / 1) 20 ((1 - 0) * 20 / 20) 20
    (by simp [get_weighted_rate, consumeAsks])
    (by simp [get_weighted_rate, consumeAsks])
    (by simp [get_weighted_rate, consumeBids])

/-- C10: update only inserts triangles with strictly positive gain, so if every
cached entry has positive gain then the invariant still holds after any
sequence of update calls with arbitrary ticker snapshots. -/
theorem opps_gain_positive_invariant (ind : TriangularArbitrageIndicator)
    (h : oppsInvariant ind.arb_opps) (snapshots : List (List (String × Ticker))) :
    oppsInvariant ((snapshots.foldl TriangularArbitrageIndicator.update ind).arb_opps) := by
  induction snapshots generalizing ind with
  | nil => exact h
  | cons tickers rest ih =>
      rw [List.foldl_cons]
      apply ih
      intro e he
      rcases update_mem ind tickers e he with h1 | h1
      · exact h e h1
      · exact h1.2

/-- Witness for C10: the invariant after one concrete update that stores a
positive-gain triangle. -/
theorem opps_gain_positive_invariant_witness :
    oppsInvariant (([posTickers].foldl TriangularArbitrageIndicator.update
      posIndicator).arb_opps) :=
  opps_gain_positive_invariant posIndicator (by simp [oppsInvariant, posIndicator]) [posTickers]

/-- A key present in a dict stays present across any insert. -/
theorem dictInsert_preserves_key {α : Type} (m : List (String × α)) (k0 : String) (v : α)
    (k : String) (h : dictLookup m k ≠ none) : dictLookup (dictInsert m k0 v) k ≠ none := by
  rw [dictLookup_dictInsert]
  by_cases hp : k0 = k
  · simp [hp]
  · simpa [hp] using h

/-- The cache after one inner-loop step is either unchanged or a single insert
into the previous cache. -/
theorem updateStep_opps_shape (calculator : ArbCalculator) (tickers : List (String × Ticker))
    (quote_curr curr1 : String) (curr1_quote : PairAndRate) (acc : UpdAcc) (curr2 : String) :
    (updateStep calculator tickers quote_curr curr1 curr1_quote acc curr2).opps = acc.opps ∨
    ∃ path tup, (updateStep calculator tickers quote_curr curr1 curr1_quote acc curr2).opps =
      dictInsert acc.opps path tup := by
  by_cases hskip : curr2 = quote_curr ∨ curr2 = curr1
  · rw [updateStep, if_pos hskip]
    exact Or.inl rfl
  · rw [updateStep, if_neg hskip]
    cases hl2 : ArbCalculator.get_pair_and_rate calculator tickers curr2 curr1 with
    | none => exact Or.inl rfl
    | some curr2_curr1 =>
        cases hl3 : ArbCalculator.get_pair_and_rate calculator tickers quote_curr curr2 with
        | none => exact Or.inl rfl
        | some quote_curr2 =>
            simp only []
            by_cases hg : 0 < curr2_curr1.calc_rate * quote_curr2.calc_rate -
              1 / curr1_quote.calc_rate
            · rw [if_pos hg]
              by_cases hm : acc.max_gain < curr2_curr1.calc_rate * quote_curr2.calc_rate -
                  1 / curr1_quote.calc_rate
              · rw [if_pos hm]
                exact Or.inr ⟨_, _, rfl⟩
              · rw [if_neg hm]
                exact Or.inr ⟨_, _, rfl⟩
            · rw [if_neg hg]
              exact Or.inl rfl

/-- A cached path stays cached across one inner-loop step. -/
theorem updateStep_preserves_key (calculator : ArbCalculator) (tickers : List (String × Ticker))
    (quote_curr curr1 : String) (curr1_quote : PairAndRate) (acc : UpdAcc) (curr2 : String)
    (k : String) (h : dictLookup acc.opps k ≠ none) :
    dictLookup (updateStep calculator tickers quote_curr curr1 curr1_quote acc curr2).opps k ≠
      none := by
  rcases updateStep_opps_shape calculator tickers quote_curr curr1 curr1_quote acc curr2 with
    hs | ⟨path, tup, hs⟩
  · rw [hs]; exact h
  · rw [hs]; exact dictInsert_preserves_key _ _ _ _ h

/-- A cached path stays cached across the inner foldl. -/
theorem foldl_updateStep_preserves_key (calculator : ArbCalculator)
    (tickers : List (String × Ticker)) (quote_curr curr1 : String) (curr1_quote : PairAndRate)
    (currs : List String) (acc : UpdAcc) (k : String) (h : dictLookup acc.opps k ≠ none) :
    dictLookup ((currs.foldl (updateStep calculator tickers quote_curr curr1 curr1_quote)
      acc).opps) k ≠ none := by
  induction currs generalizing acc with
  | nil => exact h
  | cons c rest ih =>
      rw [List.foldl_cons]
      exact ih _ (updateStep_preserves_key _ _ _ _ _ _ _ _ h)

/-- A cached path stays cached across one outer-loop step. -/
theorem updateOuter_preserves_key (calculator : ArbCalculator)
    (tickers : List (String × Ticker)) (quote_curr : String)
    (trading_currencies : List String) (acc : UpdAcc) (curr1 : String) (k : String)
    (h : dictLookup acc.opps k ≠ none) :
    dictLookup ((updateOuter calculator tickers quote_curr trading_currencies acc
      curr1).opps) k ≠ none := by
  by_cases hskip : curr1 = quote_curr
  · rw [updateOuter, if_pos hskip]; exact h
  · rw [updateOuter, if_neg hskip]
    cases hl1 : ArbCalculator.get_pair_and_rate calculator tickers curr1 quote_curr with
    | none => exact h
    | some curr1_quote => exact foldl_updateStep_preserves_key _ _ _ _ _ _ _ _ h

/-- A cached path stays cached across the outer foldl. -/
theorem foldl_updateOuter_preserves_key (calculator : ArbCalculator)
    (tickers : List (String × Ticker)) (quote_curr : String)
    (trading_currencies currs : List String) (acc : UpdAcc) (k : String)
    (h : dictLookup acc.opps k ≠ none) :
    dictLookup ((currs.foldl (updateOuter calculator tickers quote_curr trading_currencies)
      acc).opps) k ≠ none := by
  induction currs generalizing acc with
  | nil => exact h
  | cons c rest ih =>
      rw [List.foldl_cons]
      exact ih _ (updateOuter_preserves_key _ _ _ _ _ _ _ h)

/-- When a triangle has both remaining legs and strictly positive gain, the
inner-loop step is exactly one insert of that triangle under its path key. -/
theorem updateStep_stores (calculator : ArbCalculator) (tickers : List (String × Ticker))
    (quote_curr curr1 : String) (curr1_quote : PairAndRate) (acc : UpdAcc) (curr2 : String)
    (curr2_curr1 quote_curr2 : PairAndRate)
    (hskip : ¬(curr2 = quote_curr ∨ curr2 = curr1))
    (hl2 : ArbCalculator.get_pair_and_rate calculator tickers curr2 curr1 = some curr2_curr1)
    (hl3 : ArbCalculator.get_pair_and_rate calculator tickers quote_curr curr2 = some quote_curr2)
    (hg : 0 < curr2_curr1.calc_rate * quote_curr2.calc_rate - 1 / curr1_quote.calc_rate) :
    (updateStep calculator tickers quote_curr curr1 curr1_quote acc curr2).opps =
      dictInsert acc.opps
        (curr1_quote.pair ++ ">" ++ curr2_curr1.pair ++ ">" ++ quote_curr2.pair)
        (curr1_quote, curr2_curr1, quote_curr2,
          curr2_curr1.calc_rate * quote_curr2.calc_rate - 1 / curr1_quote.calc_rate) := by
  rw [updateStep, if_neg hskip]
  simp only [hl2, hl3]
  rw [if_pos hg]
  by_cases hm : acc.max_gain < curr2_curr1.calc_rate * quote_curr2.calc_rate -
      1 / curr1_quote.calc_rate
  · rw [if_pos hm]
  · rw [if_neg hm]

/-- The stored triangle stays present through the rest of the inner loop. -/
theorem foldl_updateStep_establishes (calculator : ArbCalculator)
    (tickers : List (String × Ticker)) (quote_curr curr1 : String)
    (curr1_quote : PairAndRate) (currs : List String) (curr2 : String)
    (curr2_curr1 quote_curr2 : PairAndRate) (hc2 : curr2 ∈ currs)
    (hskip : ¬(curr2 = quote_curr ∨ curr2 = curr1))
    (hl2 : ArbCalculator.get_pair_and_rate calculator tickers curr2 curr1 = some curr2_curr1)
    (hl3 : ArbCalculator.get_pair_and_rate calculator tickers quote_curr curr2 = some quote_curr2)
    (hg : 0 < curr2_curr1.calc_rate * quote_curr2.calc_rate - 1 / curr1_quote.calc_rate)
    (acc : UpdAcc) :
    dictLookup ((currs.foldl (updateStep calculator tickers quote_curr curr1 curr1_quote)
      acc).opps)
      (curr1_quote.pair ++ ">" ++ curr2_curr1.pair ++ ">" ++ quote_curr2.pair) ≠ none := by
  induction currs generalizing acc with
  | nil => cases hc2
  | cons c rest ih =>
      rw [List.foldl_cons]
      rcases List.mem_cons.mp hc2 with hc | hc
      · subst hc
        apply foldl_updateStep_preserves_key
        rw [updateStep_stores calculator tickers quote_curr curr1 curr1_quote acc curr2
          curr2_curr1 quote_curr2 hskip hl2 hl3 hg]
        rw [dictLookup_dictInsert, if_pos rfl]
        simp
      · exact ih hc _

/-- The stored triangle stays present through the rest of the outer loop. -/
theorem foldl_updateOuter_establishes (calculator : ArbCalculator)
    (tickers : List (String × Ticker)) (quote_curr : String)
    (trading_currencies currs : List String) (curr1 curr2 : String)
    (curr1_quote curr2_curr1 quote_curr2 : PairAndRate)
    (hc1 : curr1 ∈ currs) (hc2 : curr2 ∈ trading_currencies) (h1q : ¬curr1 = quote_curr)
    (hskip : ¬(curr2 = quote_curr ∨ curr2 = curr1))
    (hl1 : ArbCalculator.get_pair_and_rate calculator tickers curr1 quote_curr = some curr1_quote)
    (hl2 : ArbCalculator.get_pair_and_rate calculator tickers curr2 curr1 = some curr2_curr1)
    (hl3 : ArbCalculator.get_pair_and_rate calculator tickers quote_curr curr2 = some quote_curr2)
    (hg : 0 < curr2_curr1.calc_rate * quote_curr2.calc_rate - 1 / curr1_quote.calc_rate)
    (acc : UpdAcc) :
    dictLookup ((currs.foldl (updateOuter calculator tickers quote_curr trading_currencies)
      acc).opps)
      (curr1_quote.pair ++ ">" ++ curr2_curr1.pair ++ ">" ++ quote_curr2.pair) ≠ none := by
  induction currs generalizing acc with
  | nil => cases hc1
  | cons c rest ih =>
      rw [List.foldl_cons]
      rcases List.mem_cons.mp hc1 with hc | hc
      · subst hc
        apply foldl_updateOuter_preserves_key
        rw [updateOuter, if_neg h1q, hl1]
        exact foldl_updateStep_establishes calculator tickers quote_curr curr1 curr1_quote
          trading_currencies curr2 curr2_curr1 quote_curr2 hc2 hskip hl2 hl3 hg acc
      · exact ih hc _

/-- Counterexample to C4 as stated: in the cexTickers snapshot all three legs of
the BTC, ETH triangle from quote USD are present, BTC and ETH are trading
currencies, yet after update the opportunity cache is empty, because the
computed gain is zero and tri_arb_indicator.py line 85 stores a triangle only
when its gain is strictly positive. -/
theorem store_without_positive_gain_cex :
    (ArbCalculator.get_pair_and_rate cexIndicator.arb_calculator cexTickers "BTC"
      cexIndicator.quote_curr).isSome = true
    ∧ (ArbCalculator.get_pair_and_rate cexIndicator.arb_calculator cexTickers "ETH"
      "BTC").isSome = true
    ∧ (ArbCalculator.get_pair_and_rate cexIndicator.arb_calculator cexTickers
      cexIndicator.quote_curr "ETH").isSome = true
    ∧ "BTC" ∈ cexIndicator.trading_currencies
    ∧ "ETH" ∈ cexIndicator.trading_currencies
    ∧ (TriangularArbitrageIndicator.update cexIndicator cexTickers).arb_opps = [] := by
  refine ⟨?_, ?_, ?_, ?_, ?_, ?_⟩
  · simp [cexIndicator, ArbCalculator.get_pair_and_rate,
      MarketOrderArbCalculator.get_pair_and_rate, cexTickers, dictLookup, mkTicker]
  · simp [cexIndicator, ArbCalculator.get_pair_and_rate,
      MarketOrderArbCalculator.get_pair_and_rate, cexTickers, dictLookup, mkTicker]
  · simp [cexIndicator, ArbCalculator.get_pair_and_rate,
      MarketOrderArbCalculator.get_pair_and_rate, cexTickers, dictLookup, mkTicker]
  · simp [cexIndicator]
  · simp [cexIndicator]
  · simp [TriangularArbitrageIndicator.update, updateOuter, updateStep, cexIndicator,
      cexTickers, ArbCalculator.get_pair_and_rate, MarketOrderArbCalculator.get_pair_and_rate,
      dictLookup, dictInsert, mkTicker]

/-- C4 amended: for every triangle whose three legs are present and whose
computed gain is strictly positive, the loop body of update stores the tuple
(leg1, leg2, leg3, gain) into the opportunity cache under the triangle path
key, overwriting any prior value under that path and leaving all other keys
unchanged; consequently after a full update call the path of such a triangle
drawn from the trading currencies is bound in the cache. -/
theorem positive_gain_store_overwrite :
    (∀ (calculator : ArbCalculator) (tickers : List (String × Ticker))
      (quote_curr curr1 : String) (curr1_quote : PairAndRate) (acc : UpdAcc)
      (curr2 : String) (curr2_curr1 quote_curr2 : PairAndRate),
      ¬(curr2 = quote_curr ∨ curr2 = curr1) →
      ArbCalculator.get_pair_and_rate calculator tickers curr2 curr1 = some curr2_curr1 →
      ArbCalculator.get_pair_and_rate calculator tickers quote_curr curr2 = some quote_curr2 →
      0 < curr2_curr1.calc_rate * quote_curr2.calc_rate - 1 / curr1_quote.calc_rate →
      dictLookup ((updateStep calculator tickers quote_curr curr1 curr1_quote acc curr2).opps)
          (curr1_quote.pair ++ ">" ++ curr2_curr1.pair ++ ">" ++ quote_curr2.pair) =
        some (curr1_quote, curr2_curr1, quote_curr2,
          curr2_curr1.calc_rate * quote_curr2.calc_rate - 1 / curr1_quote.calc_rate)
      ∧ ∀ k, k ≠ curr1_quote.pair ++ ">" ++ curr2_curr1.pair ++ ">" ++ quote_curr2.pair →
          dictLookup ((updateStep calculator tickers quote_curr curr1 curr1_quote acc
            curr2).opps) k = dictLookup acc.opps k)
    ∧ (∀ (ind : TriangularArbitrageIndicator) (tickers : List (String × Ticker))
      (curr1 curr2 : String) (curr1_quote curr2_curr1 quote_curr2 : PairAndRate),
      curr1 ∈ ind.trading_currencies → curr2 ∈ ind.trading_currencies →
      ¬curr1 = ind.quote_curr → ¬(curr2 = ind.quote_curr ∨ curr2 = curr1) →
      ArbCalculator.get_pair_and_rate ind.arb_calculator tickers curr1 ind.quote_curr =
        some curr1_quote →
      ArbCalculator.get_pair_and_rate ind.arb_calculator tickers curr2 curr1 =
        some curr2_curr1 →
      ArbCalculator.get_pair_and_rate ind.arb_calculator tickers ind.quote_curr curr2 =
        some quote_curr2 →
      0 < curr2_curr1.calc_rate * quote_curr2.calc_rate - 1 / curr1_quote.calc_rate →
      dictLookup ((TriangularArbitrageIndicator.update ind tickers).arb_opps)
        (curr1_quote.pair ++ ">" ++ curr2_curr1.pair ++ ">" ++ quote_curr2.pair) ≠ none) := by
  constructor
  · intro calculator tickers quote_curr curr1 curr1_quote acc curr2 curr2_curr1 quote_curr2
      hskip hl2 hl3 hg
    rw [updateStep_stores calculator tickers quote_curr curr1 curr1_quote acc curr2
      curr2_curr1 quote_curr2 hskip hl2 hl3 hg]
    constructor
    · rw [dictLookup_dictInsert, if_pos rfl]
    · intro k hk
      rw [dictLookup_dictInsert, if_neg (fun h => hk h.symm)]
  · intro ind tickers curr1 curr2 curr1_quote curr2_curr1 quote_curr2 hc1 hc2 h1q hskip
      hl1 hl2 hl3 hg
    exact foldl_updateOuter_establishes ind.arb_calculator tickers ind.quote_curr
      ind.trading_currencies ind.trading_currencies curr1 curr2 curr1_quote curr2_curr1
      quote_curr2 hc1 hc2 h1q hskip hl1 hl2 hl3 hg _

/-- Witness for C4 amended: after one concrete update the positive-gain
triangle path is bound in the cache. -/
theorem positive_gain_store_overwrite_witness :
    dictLookup ((TriangularArbitrageIndicator.update posIndicator posTickers).arb_opps)
      ((⟨"BTC_USD", 1 / 10, 10, OrderSide.BUY⟩ : PairAndRate).pair ++ ">" ++
        (⟨"ETH_BTC", 20, 1 / 20, OrderSide.BUY⟩ : PairAndRate).pair ++ ">" ++
        (⟨"ETH_USD", 1, 1, OrderSide.SELL⟩ : PairAndRate).pair) ≠ none :=
  positive_gain_store_overwrite.2 posIndicator posTickers "BTC" "ETH"
    ⟨"BTC_USD", 1 / 10, 10, OrderSide.BUY⟩ ⟨"ETH_BTC", 20, 1 / 20, OrderSide.BUY⟩
    ⟨"ETH_USD", 1, 1, OrderSide.SELL⟩
    (by simp [posIndicator]) (by simp [posIndicator]) (by simp [posIndicator])
    (by simp [posIndicator])
    (by simp [posIndicator, posTickers, ArbCalculator.get_pair_and_rate,
      MarketOrderArbCalculator.get_pair_and_rate, dictLookup, mkTicker])
    (by simp [posIndicator, posTickers, ArbCalculator.get_pair_and_rate,
      MarketOrderArbCalculator.get_pair_and_rate, dictLookup, mkTicker])
    (by simp [posIndicator, posTickers, ArbCalculator.get_pair_and_rate,
      MarketOrderArbCalculator.get_pair_and_rate, dictLookup, mkTicker])
    (by norm_num)

/-- Unfolding of the ladder amount sum over a cons. -/
theorem sumLevelAmounts_cons (l : Level) (rest : List Level) :
    sumLevelAmounts (l :: rest) = l.amount + sumLevelAmounts rest := by
  simp [sumLevelAmounts]

/-- Unfolding of the ladder quantity sum over a cons. -/
theorem sumLevelQuantities_cons (l : Level) (rest : List Level) :
    sumLevelQuantities (l :: rest) = l.quantity + sumLevelQuantities rest := by
  simp [sumLevelQuantities]

/-- A ladder of nonnegative amounts has nonnegative amount sum. -/
theorem sumLevelAmounts_nonneg (levels : List Level) (h : ∀ l ∈ levels, 0 ≤ l.amount) :
    0 ≤ sumLevelAmounts levels := by
  induction levels with
  | nil => simp [sumLevelAmounts]
  | cons l rest ih =>
      rw [sumLevelAmounts_cons]
      have h1 := h l (List.mem_cons_self _ _)
      have h2 := ih (fun x hx => h x (List.mem_cons_of_mem _ hx))
      linarith

/-- A ladder of nonnegative quantities has nonnegative quantity sum. -/
theorem sumLevelQuantities_nonneg (levels : List Level) (h : ∀ l ∈ levels, 0 ≤ l.quantity) :
    0 ≤ sumLevelQuantities levels := by
  induction levels with
  | nil => simp [sumLevelQuantities]
  | cons l rest ih =>
      rw [sumLevelQuantities_cons]
      have h1 := h l (List.mem_cons_self _ _)
      have h2 := ih (fun x hx => h x (List.mem_cons_of_mem _ hx))
      linarith

/-- For a ladder of nonnegative amounts, the ask walk ends short of the target
exactly when the running start plus the whole ladder amount is short of it. -/
theorem consumeAsks_amt (amount_to_sell last_rate quantity_total amount_total : ℚ)
    (levels : List Level) (h : ∀ l ∈ levels, 0 ≤ l.amount) :
    ((consumeAsks amount_to_sell last_rate quantity_total amount_total levels).2.2 <
      amount_to_sell ↔ amount_total + sumLevelAmounts levels < amount_to_sell) := by
  induction levels generalizing last_rate quantity_total amount_total with
  | nil => simp [consumeAsks, sumLevelAmounts]
  | cons l rest ih =>
      rw [consumeAsks]
      have hrest : ∀ x ∈ rest, 0 ≤ x.amount := fun x hx => h x (List.mem_cons_of_mem _ hx)
      have hs : 0 ≤ sumLevelAmounts rest := sumLevelAmounts_nonneg rest hrest
      by_cases hb : amount_to_sell ≤ amount_total + l.amount
      · rw [if_pos hb]
        have h1 : ¬(amount_total + l.amount < amount_to_sell) := not_lt.mpr hb
        have h2 : ¬(amount_total + sumLevelAmounts (l :: rest) < amount_to_sell) := by
          rw [sumLevelAmounts_cons]
          intro hcon
          linarith
        simp [h1, h2]
      · rw [if_neg hb]
        rw [ih l.price (quantity_total + l.quantity) (amount_total + l.amount) hrest]
        rw [sumLevelAmounts_cons]
        constructor <;> intro <;> linarith

/-- For a ladder of nonnegative quantities, the bid walk ends short of the
target exactly when the running start plus the whole ladder quantity is short. -/
theorem consumeBids_qty (amount_to_sell last_rate quantity_total amount_total : ℚ)
    (levels : List Level) (h : ∀ l ∈ levels, 0 ≤ l.quantity) :
    ((consumeBids amount_to_sell last_rate quantity_total amount_total levels).2.1 <
      amount_to_sell ↔ quantity_total + sumLevelQuantities levels < amount_to_sell) := by
  induction levels generalizing last_rate quantity_total amount_total with
  | nil => simp [consumeBids, sumLevelQuantities]
  | cons l rest ih =>
      rw [consumeBids]
      have hrest : ∀ x ∈ rest, 0 ≤ x.quantity := fun x hx => h x (List.mem_cons_of_mem _ hx)
      have hs : 0 ≤ sumLevelQuantities rest := sumLevelQuantities_nonneg rest hrest
      by_cases hb : amount_to_sell ≤ quantity_total + l.quantity
      · rw [if_pos hb]
        have h1 : ¬(quantity_total + l.quantity < amount_to_sell) := not_lt.mpr hb
        have h2 : ¬(quantity_total + sumLevelQuantities (l :: rest) < amount_to_sell) := by
          rw [sumLevelQuantities_cons]
          intro hcon
          linarith
        simp [h1, h2]
      · rw [if_neg hb]
        rw [ih l.price (quantity_total + l.quantity) (amount_total + l.amount) hrest]
        rw [sumLevelQuantities_cons]
        constructor <;> intro <;> linarith

/-- C5: the weighted-rate computation fails with the insufficient-depth error
exactly when the walked side of the book cannot reach the target: on a BUY leg
when the total ladder amount is strictly below the quote amount to spend, on a
SELL leg when the total ladder quantity is strictly below the base quantity to
sell (amount and quantity columns of a real book are nonnegative). -/
theorem insufficient_depth_iff (taker_fee amount_to_sell : ℚ) (order_book : OrderBook) :
    ((∀ l ∈ order_book.ask, 0 ≤ l.amount) →
      (get_weighted_rate taker_fee amount_to_sell order_book OrderSide.BUY = none ↔
        sumLevelAmounts order_book.ask < amount_to_sell))
    ∧ ((∀ l ∈ order_book.bid, 0 ≤ l.quantity) →
      (get_weighted_rate taker_fee amount_to_sell order_book OrderSide.SELL = none ↔
        sumLevelQuantities order_book.bid < amount_to_sell)) := by
  constructor
  · intro h
    have key := consumeAsks_amt amount_to_sell 0 0 0 order_book.ask h
    rw [zero_add] at key
    simp only [get_weighted_rate]
    by_cases hc : (consumeAsks amount_to_sell 0 0 0 order_book.ask).2.2 < amount_to_sell
    · simp [hc, key.mp hc]
    · simp only [if_neg hc]
      simp [hc]
      exact not_lt.mp fun hsum => hc (key.mpr hsum)
  · intro h
    have key := consumeBids_qty amount_to_sell 0 0 0 order_book.bid h
    rw [zero_add] at key
    simp only [get_weighted_rate]
    by_cases hc : (consumeBids amount_to_sell 0 0 0 order_book.bid).2.1 < amount_to_sell
    · simp [hc, key.mp hc]
    · simp only [if_neg hc]
      simp [hc]
      exact not_lt.mp fun hsum => hc (key.mpr hsum)

/-- Witness for C5: a one-level book of amount 10 cannot cover a 100 target. -/
theorem insufficient_depth_iff_witness :
    get_weighted_rate (1 / 500) 100 ⟨[⟨10, 1, 10⟩], []⟩ OrderSide.BUY = none :=
  ((insufficient_depth_iff (1 / 500) 100 ⟨[⟨10, 1, 10⟩], []⟩).1
    (by simp [Level.amount])).mpr (by norm_num [sumLevelAmounts])

/-- C6: when the book walk overshoots the target, the last consumed level is
trimmed proportionally at its price so that the accumulated total exactly
equals the requested amount, and the weighted rate is recomputed on the
trimmed totals. On a BUY leg the quantity removed times the last price equals
the amount removed and the accumulated amount becomes the target; on a SELL
leg the amount removed equals the quantity removed times the last price and
the accumulated quantity becomes the target. In particular for a BUY with
target 100 over the levels (10, 5, 50) and (11, 6, 66) the walk reaches
amount 116, the last level contributes only 50 of its 66 and the trimmed
quantity is 105 / 11. -/
theorem overshoot_trim :
    (∀ (taker_fee amount_to_sell : ℚ) (order_book : OrderBook) (last_rate qt0 amt0 : ℚ),
      consumeAsks amount_to_sell 0 0 0 order_book.ask = (last_rate, qt0, amt0) →
      amount_to_sell < amt0 → last_rate ≠ 0 →
      get_weighted_rate taker_fee amount_to_sell order_book OrderSide.BUY =
        some ((1 - taker_fee) * (qt0 - (amt0 - amount_to_sell) / last_rate) / amount_to_sell,
              qt0 - (amt0 - amount_to_sell) / last_rate)
      ∧ (qt0 - (qt0 - (amt0 - amount_to_sell) / last_rate)) * last_rate =
          amt0 - amount_to_sell)
    ∧ (∀ (taker_fee amount_to_sell : ℚ) (order_book : OrderBook) (last_rate qt0 amt0 : ℚ),
      consumeBids amount_to_sell 0 0 0 order_book.bid = (last_rate, qt0, amt0) →
      amount_to_sell < qt0 →
      get_weighted_rate taker_fee amount_to_sell order_book OrderSide.SELL =
        some ((1 - taker_fee) * (amt0 - (qt0 - amount_to_sell) * last_rate) / amount_to_sell,
              amt0 - (qt0 - amount_to_sell) * last_rate)
      ∧ amt0 - (amt0 - (qt0 - amount_to_sell) * last_rate) =
          (qt0 - amount_to_sell) * last_rate)
    ∧ get_weighted_rate (1 / 500) 100 ⟨[⟨10, 5, 50⟩, ⟨11, 6, 66⟩], []⟩ OrderSide.BUY =
        some ((1 - 1 / 500) * (105 / 11) / 100, 105 / 11) := by
  refine ⟨?_, ?_, ?_⟩
  · intro taker_fee amount_to_sell order_book last_rate qt0 amt0 hcons hover hlr
    constructor
    · simp only [get_weighted_rate, hcons]
      rw [if_neg (not_lt.mpr (le_of_lt hover))]
      simp [hover]
    · field_simp
  · intro taker_fee amount_to_sell order_book last_rate qt0 amt0 hcons hover
    constructor
    · simp only [get_weighted_rate, hcons]
      rw [if_neg (not_lt.mpr (le_of_lt hover))]
      simp [hover]
    · ring
  · simp [get_weighted_rate, consumeAsks]
    norm_num

/-- Witness for C6: the BUY trim clause applied to the concrete book of the
claim, where the walk ends at last price 11, quantity 11 and amount 116, and
the SELL trim clause applied to the same levels on the bid side with quantity
target 7, where the walk ends at last price 11, quantity 11 and amount 116. -/
theorem overshoot_trim_witness :
    (get_weighted_rate (1 / 500) 100 ⟨[⟨10, 5, 50⟩, ⟨11, 6, 66⟩], []⟩ OrderSide.BUY =
      some ((1 - 1 / 500) * (11 - (116 - 100) / 11) / 100, 11 - (116 - 100) / 11)
    ∧ (11 - (11 - (116 - 100) / 11)) * 11 = 116 - (100 : ℚ))
    ∧ (get_weighted_rate (1 / 500) 7 ⟨[], [⟨10, 5, 50⟩, ⟨11, 6, 66⟩]⟩ OrderSide.SELL =
      some ((1 - 1 / 500) * (116 - (11 - 7) * 11) / 7, 116 - (11 - 7) * 11)
    ∧ 116 - (116 - (11 - 7) * 11) = ((11 : ℚ) - 7) * 11) :=
  ⟨overshoot_trim.1 (1 / 500) 100 ⟨[⟨10, 5, 50⟩, ⟨11, 6, 66⟩], []⟩ 11 11 116
    (by simp [consumeAsks]; norm_num) (by norm_num) (by norm_num),
   overshoot_trim.2.1 (1 / 500) 7 ⟨[], [⟨10, 5, 50⟩, ⟨11, 6, 66⟩]⟩ 11 11 116
    (by simp [consumeBids]; norm_num) (by norm_num)⟩

/-- C7: start_arb_loop is a no-op while a loop is in progress (a current order
exists) or while the trader runs in paper-trading mode: the returned state
equals the input state in every field and no order is submitted. -/
theorem start_arb_loop_noop (t : TriangularArbitrageTrader)
    (handler : Option (Order → Order)) (exch_order_id : Int) (now : Nat)
    (pair1 pair2 pair3 : PairAndRate) (triarb_opp_id : Int) (trading_amount : ℚ)
    (h : t.paper_trading = true ∨ t.current_order.isSome = true) :
    TriangularArbitrageTrader.start_arb_loop t handler exch_order_id now pair1 pair2 pair3
      triarb_opp_id trading_amount = (t, []) := by
  rw [TriangularArbitrageTrader.start_arb_loop]
  rcases h with h | h <;> simp [h]

/-- Witness for C7: a second start_arb_loop on a busy trader changes nothing. -/
theorem start_arb_loop_noop_witness :
    TriangularArbitrageTrader.start_arb_loop busyTrader none 7 3 samplePair samplePair
      samplePair 2 5 = (busyTrader, []) :=
  start_arb_loop_noop busyTrader none 7 3 samplePair samplePair samplePair 2 5
    (Or.inr rfl)

/-- C8: when the current order has a real exchange id, is no longer listed in
the open-orders view and its trade history is empty, the trader update raises
the hard vanished-order error to the caller instead of continuing the loop;
the model propagates the error with no retry path. -/
theorem vanished_order_fatal (t : TriangularArbitrageTrader)
    (open_orders : List (String × List Int)) (taker_fee : ℚ)
    (handler : Option (Order → Order)) (exch_order_id : Int) (now : Nat)
    (co : Order) (cp : PairAndRate)
    (hp : t.paper_trading = false)
    (h1 : t.current_order = some co)
    (h2 : ¬co.exch_order_id = -1)
    (h3 : t.current_pair = some cp)
    (h4 : order_still_open open_orders cp.pair co.exch_order_id = false) :
    TriangularArbitrageTrader.update t open_orders none taker_fee handler exch_order_id now =
      Except.error "Error: order executed but no trades found" := by
  have hs : TriangularArbitrageTrader.update_current_order_status t open_orders none
      taker_fee handler = Except.error "Error: order executed but no trades found" := by
    rw [TriangularArbitrageTrader.update_current_order_status]
    rw [h1]
    simp only [if_neg h2]
    by_cases ho : open_orders = []
    · simp [ho]
    · simp only [if_neg ho, h3]
      rw [if_neg (by rw [h4]; exact Bool.false_ne_true)]
  rw [TriangularArbitrageTrader.update, if_neg (by simp [hp]), hs]

/-- Witness for C8: the busy trader whose order id 5 is absent from the
open-orders view and has no trades receives the fatal error. -/
theorem vanished_order_fatal_witness :
    TriangularArbitrageTrader.update busyTrader [("BTC_USD", [9])] none (1 / 500) none 7 3 =
      Except.error "Error: order executed but no trades found" :=
  vanished_order_fatal busyTrader [("BTC_USD", [9])] (1 / 500) none 7 3 sampleOrder
    samplePair rfl rfl (by simp [sampleOrder]) rfl
    (by simp [order_still_open, samplePair, sampleOrder, dictLookup])
